import Mathlib

/-!
Shallow embedding of the saini-game-hub-backend Express application
(src/app.js and src/unnamed/part_000) and proofs about its handlers.

The two source files are near-duplicate variants of the same server; the
embedding follows src/unnamed/part_000 for the routes it alone has
(/upload-profile, /logout) and src/app.js for the shared routes, whose
handler bodies are identical in both files.

External libraries that the handlers call (validator.isEmail, bcryptjs,
JSON.parse of the cookie string) are modelled as function parameters: the
handlers' logic is parametric in them, exactly as the source code is.
Identifiers such as user ids are modelled as Nat; the MongoDB collection is
a list of records; the multer upload directory is a list of stored
filenames.
-/

namespace GameHub

/-- A stored user record: the mongoose `User` schema
(src/app.js lines 89-97 / part_000 lines 59-67).  `password` holds the
bcrypt hash; `profileImage` defaults to the empty string. -/
structure UserRec where
  id : Nat
  name : String
  username : String
  contact : String
  email : String
  password : String
  profileImage : String
deriving Repr, DecidableEq

/-- A JSON value, the result of `JSON.parse` on a cookie string. -/
inductive Json where
  | null : Json
  | bool (b : Bool) : Json
  | num (n : Int) : Json
  | str (s : String) : Json
  | arr (xs : List Json) : Json
  | obj (fields : List (String × Json)) : Json

/-- JavaScript truthiness of a JSON value (`!!user` in the /check handler):
`null`, `false`, `0` and `""` are falsy, everything else is truthy. -/
def Json.truthy : Json → Bool
  | .null => false
  | .bool b => b
  | .num n => n != 0
  | .str s => s != ""
  | .arr _ => true
  | .obj _ => true

/-- Field access on a parsed JSON value: `const { id } = parsed` yields the
field when `parsed` is an object that has it, and `undefined` (here `none`)
when the field is absent or `parsed` is not an object.  (Destructuring
`null` throws; the callers below handle that case separately.) -/
def Json.getField : Json → String → Option Json
  | .obj fs, k => (fs.find? (fun p => p.1 == k)).map (fun p => p.2)
  | _, _ => none

/-- The `user` session-cookie payload `{id, username}` that /register and
/login stringify into the cookie (src/app.js lines 147-156, 177-186). -/
structure SessCookie where
  id : Nat
  username : String
deriving Repr, DecidableEq

/-- The JSON value that `JSON.stringify({id, username})` denotes. -/
def SessCookie.toJson (c : SessCookie) : Json :=
  .obj [("id", .num (Int.ofNat c.id)), ("username", .str c.username)]

/-- JavaScript truthiness of a possibly-absent request-body string field:
`undefined` (absent) and the empty string are both falsy, so
`if (!name || ...)` rejects them alike (src/app.js line 125). -/
def fieldTruthy : Option String → Bool
  | none => false
  | some s => !(s == "")

/-- The JavaScript `String.prototype.endsWith`, modelled over the
character list: the suffix of `s` of the target's length equals the
target. -/
def strEndsWith (s target : String) : Bool :=
  let cs := s.toList
  let ps := target.toList
  cs.drop (cs.length - ps.length) == ps

/-- Gmail validation (src/app.js lines 83-84):
`validator.isEmail(email) && email.endsWith("@gmail.com")`.  The external
`validator.isEmail` is a parameter. -/
def isValidGmail (isEmail : String → Bool) (email : String) : Bool :=
  isEmail email && strEndsWith email "@gmail.com"

/-- Result of the /register handler (src/app.js lines 121-162). -/
inductive RegisterResult where
  | missingFields : RegisterResult
  | onlyGmail : RegisterResult
  | userExists : RegisterResult
  | success (cookie : SessCookie) : RegisterResult
deriving Repr, DecidableEq

/-- HTTP status the /register handler sends for each outcome. -/
def RegisterResult.status : RegisterResult → Nat
  | .missingFields => 400
  | .onlyGmail => 400
  | .userExists => 400
  | .success _ => 200

/-- The /register handler (src/app.js lines 121-162).  Body fields are
`Option String` (absent = `none`); `isEmail` models `validator.isEmail`,
`hash` models `bcrypt.hash(·, 10)`, `freshId` the id MongoDB assigns.
Returns the handler outcome and the collection after the call. -/
def register (isEmail : String → Bool) (hash : String → String)
    (store : List UserRec) (freshId : Nat)
    (name username contact email password : Option String) :
    RegisterResult × List UserRec :=
  if !(fieldTruthy name) || !(fieldTruthy username) || !(fieldTruthy contact)
      || !(fieldTruthy email) || !(fieldTruthy password) then
    (.missingFields, store)
  else if !(isValidGmail isEmail (email.getD "")) then
    (.onlyGmail, store)
  else
    match store.find? (fun u =>
        u.email == email.getD "" || u.username == username.getD "") with
    | some _ => (.userExists, store)
    | none =>
      let user : UserRec :=
        { id := freshId, name := name.getD "", username := username.getD "",
          contact := contact.getD "", email := email.getD "",
          password := hash (password.getD ""), profileImage := "" }
      (.success { id := user.id, username := user.username }, store ++ [user])

/-- Result of the /login handler (src/app.js lines 167-192). -/
inductive LoginResult where
  | userNotFound : LoginResult
  | wrongPassword : LoginResult
  | success (cookie : SessCookie) : LoginResult
deriving Repr, DecidableEq

/-- HTTP status the /login handler sends for each outcome. -/
def LoginResult.status : LoginResult → Nat
  | .userNotFound => 400
  | .wrongPassword => 400
  | .success _ => 200

/-- The `Set-Cookie` payload of a /login outcome, `none` when the handler
returned before reaching `res.cookie` (src/app.js lines 172, 175). -/
def LoginResult.cookie : LoginResult → Option SessCookie
  | .success c => some c
  | _ => none

/-- The /login handler (src/app.js lines 167-192).  `compare` models
`bcrypt.compare(password, storedHash)`.  The handler performs no write, so
the collection is returned unchanged. -/
def login (compare : String → String → Bool) (store : List UserRec)
    (email password : String) : LoginResult × List UserRec :=
  match store.find? (fun u => u.email == email) with
  | none => (.userNotFound, store)
  | some user =>
    if compare password user.password then
      (.success { id := user.id, username := user.username }, store)
    else
      (.wrongPassword, store)

/-- The JSON body of the /check response: `{loggedIn, user}` on the normal
path, and the bare `{loggedIn:false}` (user field absent, `user = none`)
from the catch branch (src/app.js lines 197-204). -/
structure CheckResponse where
  loggedIn : Bool
  user : Option Json

/-- The /check handler (src/app.js lines 197-204).  `parse` models
`JSON.parse`, returning `none` when it throws, in which case the catch
branch answers `{loggedIn:false}`.  An absent or empty cookie string is
falsy, so `user` is `null` and `loggedIn` is `false`. -/
def checkSession (parse : String → Option Json) (cookie : Option String) :
    CheckResponse :=
  match cookie with
  | none => { loggedIn := false, user := some Json.null }
  | some c =>
    if c == "" then { loggedIn := false, user := some Json.null }
    else
      match parse c with
      | none => { loggedIn := false, user := none }
      | some j => { loggedIn := j.truthy, user := some j }

/-- The Node `path.extname`: the suffix of the name from its last dot,
empty when there is no dot or the only dot starts the name, used by the
multer `filename` callback (part_000 lines 82-83). -/
def extname (s : String) : String :=
  let rev := s.toList.reverse
  let ext := rev.takeWhile (fun c => c != '.')
  if ext.length == rev.length then ""
  else if ext.length + 1 == rev.length then ""
  else String.mk ('.' :: ext.reverse)

/-- The multer disk-storage middleware (part_000 lines 80-86): when the
request carries a multipart `profileImage` part it is written to the upload
directory under the name `Date.now() + path.extname(originalname)` BEFORE
the route handler runs.  Returns the directory contents after the
middleware and `req.file.filename`. -/
def multerSave (now : Nat) (files : List String) (file : Option String) :
    List String × Option String :=
  match file with
  | none => (files, none)
  | some orig =>
    let fname := toString now ++ extname orig
    (files ++ [fname], some fname)

/-- `User.findById(id)` with the value destructured from the cookie: a
numeric id is looked up in the collection; `undefined` or a non-id value
resolves to no user (part_000 line 195). -/
def findById (store : List UserRec) (idv : Option Json) : Option UserRec :=
  match idv with
  | some (.num n) => store.find? (fun u => (Int.ofNat u.id) == n)
  | _ => none

/-- Result of the /upload-profile handler (part_000 lines 189-207). -/
inductive UploadResult where
  | notLoggedIn : UploadResult
  | serverError : UploadResult
  | success (imageUrl : String) : UploadResult
deriving Repr, DecidableEq

/-- HTTP status the /upload-profile handler sends for each outcome:
401 `Not logged in`, 500 `Upload failed`, 200 success. -/
def UploadResult.status : UploadResult → Nat
  | .notLoggedIn => 401
  | .serverError => 500
  | .success _ => 200

/-- The /upload-profile route (part_000 lines 189-207) including its multer
middleware: the file (when present) is saved first, then the handler checks
the cookie (absent or empty is falsy, 401), parses it (a throw lands in the
catch, 500), destructures `id` (throws on `null`, 500), looks the user up
(a null user makes `user.profileImage` throw, 500), reads `req.file`
(absent makes `req.file.filename` throw, 500), and otherwise stores the
filename on the record and answers with the public URL.  Returns the
outcome, the collection after the call, and the upload directory after the
call. -/
def uploadProfile (parse : String → Option Json) (now : Nat)
    (store : List UserRec) (files : List String)
    (cookie : Option String) (file : Option String) :
    UploadResult × List UserRec × List String :=
  let saved := multerSave now files file
  let files' := saved.1
  let reqFile := saved.2
  match cookie with
  | none => (.notLoggedIn, store, files')
  | some c =>
    if c == "" then (.notLoggedIn, store, files')
    else
      match parse c with
      | none => (.serverError, store, files')
      | some .null => (.serverError, store, files')
      | some j =>
        match findById store (j.getField "id") with
        | none => (.serverError, store, files')
        | some u =>
          match reqFile with
          | none => (.serverError, store, files')
          | some fname =>
            (.success ("/uploads/profiles/" ++ fname),
             store.map (fun v =>
               if v.id == u.id then { v with profileImage := fname } else v),
             files')

/-- The uniqueness invariant the schema's unique indexes enforce
(src/app.js lines 91, 93): usernames and emails are pairwise distinct. -/
def UniqueAccounts (store : List UserRec) : Prop :=
  store.Pairwise (fun u v => u.username ≠ v.username ∧ u.email ≠ v.email)

/-! Concrete stand-ins for the external libraries, used to evaluate the
handlers at concrete inputs. -/

/-- A concrete `validator.isEmail` stand-in. -/
def demoIsEmail : String → Bool := fun s => s.toList.contains '@'

/-- A concrete `bcrypt.hash` stand-in. -/
def demoHash : String → String := fun s => "h" ++ s

/-- A concrete `bcrypt.compare` stand-in matching `demoHash`. -/
def demoCompare : String → String → Bool := fun p h => ("h" ++ p) == h

/-- A concrete stored user, as registered with `demoHash`. -/
def demoUser : UserRec :=
  { id := 1, name := "A", username := "a1", contact := "123",
    email := "a1@gmail.com", password := "hp", profileImage := "" }

/-- A concrete `JSON.parse` stand-in that throws on every input. -/
def demoParseFail : String → Option Json := fun _ => none

/-- A concrete `JSON.parse` stand-in mapping the string "ck" to an object
with neither an `id` nor a `username` field. -/
def demoParseObj : String → Option Json := fun s =>
  if s == "ck" then some (Json.obj [("x", Json.num 1)]) else none

/-- A concrete `JSON.parse` stand-in mapping the string "sc" to the session
cookie payload of `demoUser`, as a JSON round trip would. -/
def demoParseCookie : String → Option Json := fun s =>
  if s == "sc" then some (SessCookie.toJson { id := 1, username := "a1" })
  else none

/-- C8: a /check request with no session cookie (the cookie is absent, or
present but the empty, falsy string) is answered with loggedIn false, and a
cookie value whose parse throws is answered by the catch branch with the
bare loggedIn-false body.  The handler is a total function into
`CheckResponse`, which has no error alternative, so no error ever reaches
the caller. -/
theorem check_no_cookie_or_bad_parse :
    (∀ parse : String → Option Json,
      checkSession parse none = { loggedIn := false, user := some Json.null }) ∧
    (∀ parse : String → Option Json,
      checkSession parse (some "") =
        { loggedIn := false, user := some Json.null }) ∧
    (∀ (parse : String → Option Json) (c : String), c ≠ "" → parse c = none →
      checkSession parse (some c) = { loggedIn := false, user := none }) := by
  refine ⟨fun parse => rfl, fun parse => rfl, fun parse c hc hp => ?_⟩
  simp [checkSession, hc, hp]

/-- Witness for `check_no_cookie_or_bad_parse` at the cookie "bad" with a
parse function that fails on it. -/
theorem check_no_cookie_or_bad_parse_witness :
    checkSession demoParseFail (some "bad") =
      { loggedIn := false, user := none } :=
  check_no_cookie_or_bad_parse.2.2 demoParseFail "bad" (by decide) rfl

/-- C9: a cookie value that parses to ANY truthy JSON value is answered by
/check with loggedIn true and that value as `user`; the handler never
inspects the payload for `id` or `username` fields. -/
theorem check_truthy_payload_any_shape
    (parse : String → Option Json) (c : String) (j : Json)
    (hc : c ≠ "") (hp : parse c = some j) (ht : j.truthy = true) :
    checkSession parse (some c) = { loggedIn := true, user := some j } := by
  simp [checkSession, hc, hp, ht]

/-- Witness for `check_truthy_payload_any_shape` at the payload
`{"x":1}`, which has neither an `id` nor a `username` field. -/
theorem check_truthy_payload_any_shape_witness :
    checkSession demoParseObj (some "ck") =
      { loggedIn := true, user := some (Json.obj [("x", Json.num 1)]) } :=
  check_truthy_payload_any_shape demoParseObj "ck"
    (Json.obj [("x", Json.num 1)]) (by decide) rfl rfl

/-- C10: a /register request in which some field is present but equal to
the empty string is rejected with the same missing-field 400 as an absent
field, because `if (!name || ...)` decides presence by truthiness and the
empty string is falsy, exactly like `undefined`. -/
theorem register_empty_field_like_absent
    (isEmail : String → Bool) (hash : String → String)
    (store : List UserRec) (freshId : Nat)
    (name username contact email password : Option String)
    (h : name = some "" ∨ username = some "" ∨ contact = some "" ∨
         email = some "" ∨ password = some "") :
    register isEmail hash store freshId name username contact email password =
      (.missingFields, store) ∧
    fieldTruthy (some "") = fieldTruthy none := by
  refine ⟨?_, rfl⟩
  rcases h with h | h | h | h | h <;> subst h <;> simp [register, fieldTruthy]

/-- Witness for `register_empty_field_like_absent` with a present but empty
password and every other field nonempty. -/
theorem register_empty_field_like_absent_witness :
    register demoIsEmail demoHash [] 1 (some "A") (some "a1") (some "123")
        (some "a1@gmail.com") (some "") = (.missingFields, []) ∧
    fieldTruthy (some "") = fieldTruthy none :=
  register_empty_field_like_absent demoIsEmail demoHash [] 1 (some "A")
    (some "a1") (some "123") (some "a1@gmail.com") (some "")
    (Or.inr (Or.inr (Or.inr (Or.inr rfl))))

/-- C4: a /register request with an absent field fails with the 400
missing-fields validation error, and a request whose email does not end in
"@gmail.com" fails with a 400 validation error (missing-fields or
only-Gmail, depending on which check fires first) whatever
`validator.isEmail` says about it, leaving the collection untouched. -/
theorem register_validation_errors
    (isEmail : String → Bool) (hash : String → String)
    (store : List UserRec) (freshId : Nat) :
    (∀ name username contact email password : Option String,
      name = none ∨ username = none ∨ contact = none ∨ email = none ∨
          password = none →
      register isEmail hash store freshId name username contact email
          password = (.missingFields, store)) ∧
    (∀ (name username contact password : Option String) (e : String),
      strEndsWith e "@gmail.com" = false →
      ((register isEmail hash store freshId name username contact (some e)
            password).1 = .missingFields ∨
        (register isEmail hash store freshId name username contact (some e)
            password).1 = .onlyGmail) ∧
      (register isEmail hash store freshId name username contact (some e)
          password).2 = store ∧
      RegisterResult.status (register isEmail hash store freshId name
          username contact (some e) password).1 = 400) := by
  constructor
  · intro name username contact email password h
    rcases h with h | h | h | h | h <;> subst h <;>
      simp [register, fieldTruthy]
  · intro name username contact password e he
    by_cases hm : (!(fieldTruthy name) || !(fieldTruthy username) ||
        !(fieldTruthy contact) || !(fieldTruthy (some e)) ||
        !(fieldTruthy password)) = true
    · have hr : register isEmail hash store freshId name username contact
          (some e) password = (.missingFields, store) := by
        simp only [register, if_pos hm]
      rw [hr]
      exact ⟨Or.inl rfl, rfl, rfl⟩
    · have hr : register isEmail hash store freshId name username contact
          (some e) password = (.onlyGmail, store) := by
        simp only [register, if_neg hm]
        simp [isValidGmail, he]
      rw [hr]
      exact ⟨Or.inr rfl, rfl, rfl⟩

/-- Witness for `register_validation_errors`: an absent username is a 400
missing-fields error, and the syntactically plausible address
"a@yahoo.com" is rejected with a 400 even though it contains an @. -/
theorem register_validation_errors_witness :
    register demoIsEmail demoHash [] 1 (some "A") none (some "123")
        (some "a1@gmail.com") (some "p") = (.missingFields, []) ∧
    ((register demoIsEmail demoHash [] 1 (some "A") (some "a1")
          (some "123") (some "a@yahoo.com") (some "p")).1 =
        .missingFields ∨
      (register demoIsEmail demoHash [] 1 (some "A") (some "a1")
          (some "123") (some "a@yahoo.com") (some "p")).1 = .onlyGmail) ∧
    (register demoIsEmail demoHash [] 1 (some "A") (some "a1") (some "123")
        (some "a@yahoo.com") (some "p")).2 = [] ∧
    RegisterResult.status (register demoIsEmail demoHash [] 1 (some "A")
        (some "a1") (some "123") (some "a@yahoo.com") (some "p")).1 = 400 := by
  have h := register_validation_errors demoIsEmail demoHash [] 1
  have h1 := h.1 (some "A") none (some "123") (some "a1@gmail.com")
    (some "p") (Or.inr (Or.inl rfl))
  have h2 := h.2 (some "A") (some "a1") (some "123") (some "p")
    "a@yahoo.com" (by decide)
  exact ⟨h1, h2.1, h2.2.1, h2.2.2⟩

/-- C5: a /login request whose email matches a stored record but whose
password fails the bcrypt comparison is answered with the 400
wrong-password auth error, no session cookie is issued, and the collection
is returned exactly as it was (the handler performs no write). -/
theorem login_wrong_password_no_cookie
    (compare : String → String → Bool) (store : List UserRec)
    (email password : String) (u : UserRec)
    (hfind : store.find? (fun v => v.email == email) = some u)
    (hcmp : compare password u.password = false) :
    (login compare store email password).1 = .wrongPassword ∧
    ((login compare store email password).1).cookie = none ∧
    (login compare store email password).2 = store ∧
    LoginResult.status .wrongPassword = 400 := by
  simp [login, hfind, hcmp, LoginResult.cookie, LoginResult.status]

/-- Witness for `login_wrong_password_no_cookie` at `demoUser`'s email with
the wrong password "x". -/
theorem login_wrong_password_no_cookie_witness :
    (login demoCompare [demoUser] "a1@gmail.com" "x").1 = .wrongPassword ∧
    ((login demoCompare [demoUser] "a1@gmail.com" "x").1).cookie = none ∧
    (login demoCompare [demoUser] "a1@gmail.com" "x").2 = [demoUser] ∧
    LoginResult.status .wrongPassword = 400 :=
  login_wrong_password_no_cookie demoCompare [demoUser] "a1@gmail.com" "x"
    demoUser (by decide) (by decide)

/-- C3: a /login request with a stored record's email and the correct
password succeeds with the session cookie `{id, username}` carrying exactly
the stored record's username, and a subsequent /check request whose cookie
string decodes (by the JSON round trip) to that same payload is answered
with loggedIn true and that payload as `user`. -/
theorem login_sets_cookie_check_roundtrip
    (compare : String → String → Bool) (store : List UserRec)
    (email password : String) (u : UserRec)
    (hfind : store.find? (fun v => v.email == email) = some u)
    (hcmp : compare password u.password = true) :
    (login compare store email password).1 =
      .success { id := u.id, username := u.username } ∧
    (∀ (parse : String → Option Json) (s : String), s ≠ "" →
      parse s = some (SessCookie.toJson { id := u.id, username := u.username }) →
      checkSession parse (some s) =
        { loggedIn := true,
          user := some (SessCookie.toJson
            { id := u.id, username := u.username }) }) := by
  constructor
  · simp [login, hfind, hcmp]
  · intro parse s hs hp
    simp [checkSession, hs, hp, SessCookie.toJson, Json.truthy]

/-- Witness for `login_sets_cookie_check_roundtrip`: logging `demoUser` in
with the correct password "p" and checking with a cookie string that
decodes to the issued payload. -/
theorem login_sets_cookie_check_roundtrip_witness :
    (login demoCompare [demoUser] "a1@gmail.com" "p").1 =
      .success { id := 1, username := "a1" } ∧
    checkSession demoParseCookie (some "sc") =
      { loggedIn := true,
        user := some (SessCookie.toJson { id := 1, username := "a1" }) } := by
  have h := login_sets_cookie_check_roundtrip demoCompare [demoUser]
    "a1@gmail.com" "p" demoUser (by decide) (by decide)
  exact ⟨h.1, h.2 demoParseCookie "sc" (by decide) rfl⟩

/-- C7: an /upload-profile request whose cookie parses but whose id value
matches no stored user takes the not-found path: `User.findById` resolves
to null (or the destructured id is unusable), `user.profileImage` throws,
and the catch answers 500, with the collection — in particular every
record's profileImage — untouched.  Per the spec's taxonomy, NotFoundError
maps to 500 on this route. -/
theorem upload_unknown_id_no_mutation
    (parse : String → Option Json) (now : Nat) (store : List UserRec)
    (files : List String) (c : String) (j : Json) (file : Option String)
    (hc : c ≠ "") (hp : parse c = some j)
    (hid : findById store (j.getField "id") = none) :
    (uploadProfile parse now store files (some c) file).1 = .serverError ∧
    (uploadProfile parse now store files (some c) file).2.1 = store ∧
    UploadResult.status .serverError = 500 := by
  have key : uploadProfile parse now store files (some c) file =
      (.serverError, store, (multerSave now files file).1) := by
    cases j <;> simp [uploadProfile, hc, hp, hid]
  exact ⟨by rw [key], by rw [key], rfl⟩

/-- Witness for `upload_unknown_id_no_mutation`: the cookie decodes to
`{id:1, username:"a1"}` but the collection is empty. -/
theorem upload_unknown_id_no_mutation_witness :
    (uploadProfile demoParseCookie 7 [] [] (some "sc") none).1 =
      .serverError ∧
    (uploadProfile demoParseCookie 7 [] [] (some "sc") none).2.1 = [] ∧
    UploadResult.status .serverError = 500 :=
  upload_unknown_id_no_mutation demoParseCookie 7 [] [] "sc"
    (SessCookie.toJson { id := 1, username := "a1" }) none (by decide) rfl
    rfl

/-- C1 counterexample: an /upload-profile request with NO session cookie
but with a multipart file is answered 401, yet the file HAS been written to
the upload directory, because the multer disk-storage middleware saves it
before the handler's cookie check runs.  This falsifies the claim's
"no file is written" part at a concrete input. -/
theorem upload_without_cookie_still_writes_file :
    (uploadProfile demoParseFail 5 [] [] none (some "pic.png")).1 =
      .notLoggedIn ∧
    (uploadProfile demoParseFail 5 [] [] none (some "pic.png")).2.2 =
      ["5.png"] ∧
    ["5.png"] ≠ ([] : List String) :=
  ⟨by decide, by decide, by decide⟩

/-- C1 (amended): an /upload-profile request without a session cookie
(absent, or the empty falsy string) is answered with the 401 not-logged-in
error and mutates no user record; when the request carries no file, no file
is written either — but a carried multipart file is saved by the upload
middleware before the cookie check (see
`upload_without_cookie_still_writes_file`). -/
theorem upload_without_cookie_401_no_record_change
    (parse : String → Option Json) (now : Nat) (store : List UserRec)
    (files : List String) (file cookie : Option String)
    (h : cookie = none ∨ cookie = some "") :
    (uploadProfile parse now store files cookie file).1 = .notLoggedIn ∧
    UploadResult.status
      (uploadProfile parse now store files cookie file).1 = 401 ∧
    (uploadProfile parse now store files cookie file).2.1 = store ∧
    (file = none →
      (uploadProfile parse now store files cookie file).2.2 = files) := by
  have key : uploadProfile parse now store files cookie file =
      (.notLoggedIn, store, (multerSave now files file).1) := by
    rcases h with h | h <;> subst h <;> simp [uploadProfile]
  refine ⟨by rw [key], by rw [key]; rfl, by rw [key], fun hf => ?_⟩
  subst hf
  rw [key]
  rfl

/-- Witness for `upload_without_cookie_401_no_record_change` at an absent
cookie and no file. -/
theorem upload_without_cookie_401_no_record_change_witness :
    (uploadProfile demoParseFail 3 [demoUser] ["old"] none none).1 =
      .notLoggedIn ∧
    UploadResult.status
      (uploadProfile demoParseFail 3 [demoUser] ["old"] none none).1 = 401 ∧
    (uploadProfile demoParseFail 3 [demoUser] ["old"] none none).2.1 =
      [demoUser] ∧
    (uploadProfile demoParseFail 3 [demoUser] ["old"] none none).2.2 =
      ["old"] := by
  have h := upload_without_cookie_401_no_record_change demoParseFail 3
    [demoUser] ["old"] none none (Or.inl rfl)
  exact ⟨h.1, h.2.1, h.2.2.1, h.2.2.2 rfl⟩

/-- C6 counterexample: an /upload-profile request whose cookie value fails
to parse is answered by the catch branch with the 500 upload-failed server
error, not with a 401-class negative-auth denial, falsifying the claim for
the UploadProfileImage operation at a concrete input. -/
theorem upload_parse_failure_is_500_not_401 :
    (uploadProfile demoParseFail 1 [] [] (some "bad") none).1 =
      .serverError ∧
    UploadResult.status
      (uploadProfile demoParseFail 1 [] [] (some "bad") none).1 = 500 ∧
    (uploadProfile demoParseFail 1 [] [] (some "bad") none).1 ≠
      .notLoggedIn ∧
    UploadResult.status
      (uploadProfile demoParseFail 1 [] [] (some "bad") none).1 ≠ 401 :=
  ⟨by decide, by decide, by decide, by decide⟩

/-- C6 (amended): a cookie-parse failure is never propagated as a raw
error; /check swallows it into the bare loggedIn-false body, while
/upload-profile's catch converts it into the generic 500 upload-failed
response (not a 401 denial), leaving the collection untouched in both
cases. -/
theorem cookie_parse_failure_swallowed :
    (∀ (parse : String → Option Json) (c : String), c ≠ "" →
      parse c = none →
      checkSession parse (some c) = { loggedIn := false, user := none }) ∧
    (∀ (parse : String → Option Json) (now : Nat) (store : List UserRec)
        (files : List String) (c : String) (file : Option String),
      c ≠ "" → parse c = none →
      (uploadProfile parse now store files (some c) file).1 =
        .serverError ∧
      (uploadProfile parse now store files (some c) file).2.1 = store) := by
  constructor
  · intro parse c hc hp
    simp [checkSession, hc, hp]
  · intro parse now store files c file hc hp
    constructor <;> simp [uploadProfile, hc, hp]

/-- Witness for `cookie_parse_failure_swallowed` at the unparsable cookie
"bad". -/
theorem cookie_parse_failure_swallowed_witness :
    checkSession demoParseFail (some "bad") =
      { loggedIn := false, user := none } ∧
    (uploadProfile demoParseFail 2 [demoUser] [] (some "bad") none).1 =
      .serverError ∧
    (uploadProfile demoParseFail 2 [demoUser] [] (some "bad") none).2.1 =
      [demoUser] := by
  have h := cookie_parse_failure_swallowed
  have h2 := h.2 demoParseFail 2 [demoUser] [] "bad" none (by decide) rfl
  exact ⟨h.1 demoParseFail "bad" (by decide) rfl, h2.1, h2.2⟩

/-- Mapping a function over the collection that changes neither the
username nor the email of any record preserves the uniqueness invariant;
/upload-profile only rewrites profileImage, so its write is such a map. -/
theorem uniqueAccounts_map_of_preserves (store : List UserRec)
    (f : UserRec → UserRec)
    (hf : ∀ v, (f v).username = v.username ∧ (f v).email = v.email)
    (h : UniqueAccounts store) : UniqueAccounts (store.map f) := by
  unfold UniqueAccounts at *
  rw [List.pairwise_map]
  refine h.imp ?_
  intro a b hab
  rw [(hf a).1, (hf a).2, (hf b).1, (hf b).2]
  exact hab

/-- C2: on a collection in which some record already holds the requested
email, a /register call that passes the field and Gmail checks fails with
the 400 user-exists conflict, whatever (different) username it carries,
and the collection is returned exactly as it was.  Moreover every
collection-returning operation preserves the username/email uniqueness
invariant: /register (its `$or` existence check only creates a record when
no stored record shares the email or the username), /upload-profile (it
only rewrites profileImage) and /login (it performs no write). -/
theorem register_email_conflict_and_uniqueness :
    (∀ (isEmail : String → Bool) (hash : String → String)
        (store : List UserRec) (freshId : Nat)
        (nameS usernameS contactS emailS passwordS : String),
      nameS ≠ "" → usernameS ≠ "" → contactS ≠ "" → emailS ≠ "" →
      passwordS ≠ "" → isValidGmail isEmail emailS = true →
      (∃ u ∈ store, u.email = emailS) →
      register isEmail hash store freshId (some nameS) (some usernameS)
          (some contactS) (some emailS) (some passwordS) =
        (.userExists, store)) ∧
    (∀ (isEmail : String → Bool) (hash : String → String)
        (store : List UserRec) (freshId : Nat)
        (name username contact email password : Option String),
      UniqueAccounts store →
      UniqueAccounts (register isEmail hash store freshId name username
        contact email password).2) ∧
    (∀ (parse : String → Option Json) (now : Nat) (store : List UserRec)
        (files : List String) (cookie file : Option String),
      UniqueAccounts store →
      UniqueAccounts (uploadProfile parse now store files cookie
        file).2.1) ∧
    (∀ (compare : String → String → Bool) (store : List UserRec)
        (email password : String),
      (login compare store email password).2 = store) := by
  refine ⟨?_, ?_, ?_, ?_⟩
  · intro isEmail hash store freshId nS uS cS eS pS hn hu hc he hp hg hex
    obtain ⟨u, humem, huemail⟩ := hex
    cases hf : store.find? (fun v => v.email == eS || v.username == uS) with
    | none =>
      exfalso
      have := List.find?_eq_none.mp hf u humem
      simp [huemail] at this
    | some w =>
      simp [register, fieldTruthy, hn, hu, hc, he, hp, hg, hf]
  · intro isEmail hash store freshId name username contact email password
      huniq
    unfold register
    split
    · exact huniq
    · split
      · exact huniq
      · split
        · exact huniq
        · rename_i hfind
          have hall := List.find?_eq_none.mp hfind
          unfold UniqueAccounts at *
          rw [List.pairwise_append]
          refine ⟨huniq, List.pairwise_singleton _ _, ?_⟩
          intro a ha b hb
          rw [List.mem_singleton] at hb
          subst hb
          have hne := hall a ha
          simp only [Bool.or_eq_true, beq_iff_eq, not_or] at hne
          exact ⟨fun hcontra => hne.2 hcontra, fun hcontra => hne.1 hcontra⟩
  · intro parse now store files cookie file huniq
    unfold uploadProfile
    split
    · exact huniq
    · split
      · exact huniq
      · split
        · exact huniq
        · exact huniq
        · split
          · exact huniq
          · dsimp only
            split
            · exact huniq
            · refine uniqueAccounts_map_of_preserves store _ ?_ huniq
              intro v
              constructor <;> (dsimp only; split <;> rfl)
  · intro compare store email password
    unfold login
    cases store.find? (fun u => u.email == email) with
    | none => rfl
    | some u =>
      by_cases hc : compare password u.password = true <;> simp [hc]

/-- Witness for `register_email_conflict_and_uniqueness`: re-registering
`demoUser`'s email under the different username "b2" hits the conflict and
leaves the singleton collection as it was, and each preservation clause is
applied to that collection. -/
theorem register_email_conflict_and_uniqueness_witness :
    register demoIsEmail demoHash [demoUser] 2 (some "B") (some "b2")
        (some "456") (some "a1@gmail.com") (some "q") =
      (.userExists, [demoUser]) ∧
    UniqueAccounts (register demoIsEmail demoHash [demoUser] 2 (some "B")
      (some "b2") (some "456") (some "b2@gmail.com") (some "q")).2 ∧
    UniqueAccounts (uploadProfile demoParseCookie 9 [demoUser] []
      (some "sc") (some "x.png")).2.1 ∧
    (login demoCompare [demoUser] "a1@gmail.com" "p").2 = [demoUser] := by
  have h := register_email_conflict_and_uniqueness
  have huniq : UniqueAccounts [demoUser] := by simp [UniqueAccounts]
  refine ⟨h.1 demoIsEmail demoHash [demoUser] 2 "B" "b2" "456"
      "a1@gmail.com" "q" (by decide) (by decide) (by decide) (by decide)
      (by decide) (by decide) ⟨demoUser, by simp, rfl⟩,
    h.2.1 demoIsEmail demoHash [demoUser] 2 (some "B") (some "b2")
      (some "456") (some "b2@gmail.com") (some "q") huniq,
    h.2.2.1 demoParseCookie 9 [demoUser] [] (some "sc") (some "x.png")
      huniq,
    h.2.2.2 demoCompare [demoUser] "a1@gmail.com" "p"⟩

end GameHub
